import Mathlib

set_option maxRecDepth 16384

/-!
Shallow embedding of `sphinxcontrib/plantuml.py` (sphinx-contrib/plantuml).

Pure helpers of the Python module become Lean functions over `String`,
`List Nat` (bytes) and `Nat`.  Stateful pieces (`render_plantuml`, the FTP
connect loop, the directive `run` method) are embedded as explicit
state-passing functions: the filesystem is a map `String → Option (List Nat)`
from paths to file contents, and the behaviour of the spawned external
renderer is an explicit oracle argument (its return code, captured stdout
bytes and stderr text), since the external `plantuml` binary is outside the
program.  Machine integers do not occur except in SHA-1, where 32-bit words
are `Nat` reduced `% 2 ^ 32` at every operation.
-/

namespace SphinxPlantuml

/-! ### Bytes and UTF-8 (models Python `str.encode("utf-8")`) -/

/-- UTF-8 encoding of a single code point (standard RFC 3629 rules). -/
def utf8EncodeCp (c : Nat) : List Nat :=
  if c < 0x80 then [c]
  else if c < 0x800 then
    [0xC0 ||| (c >>> 6), 0x80 ||| (c &&& 0x3F)]
  else if c < 0x10000 then
    [0xE0 ||| (c >>> 12), 0x80 ||| ((c >>> 6) &&& 0x3F), 0x80 ||| (c &&& 0x3F)]
  else
    [0xF0 ||| (c >>> 18), 0x80 ||| ((c >>> 12) &&& 0x3F),
     0x80 ||| ((c >>> 6) &&& 0x3F), 0x80 ||| (c &&& 0x3F)]

/-- Models `s.encode("utf-8")`: the UTF-8 byte sequence of a string. -/
def utf8 (s : String) : List Nat :=
  s.data.flatMap (fun c => utf8EncodeCp c.toNat)

/-! ### SHA-1 (models Python `hashlib.sha1`)

Words are `Nat` kept below `2 ^ 32` by explicit reduction. -/

/-- Left-rotation of a 32-bit word. -/
def rotl (n x : Nat) : Nat :=
  ((x <<< n) ||| (x >>> (32 - n))) % 2 ^ 32

/-- Big-endian byte expansion: `toBytesBE k n` is the `k` least significant
bytes of `n`, most significant first. -/
def toBytesBE : Nat → Nat → List Nat
  | 0, _ => []
  | k + 1, n => toBytesBE k (n / 256) ++ [n % 256]

/-- SHA-1 padding: append `0x80`, zeros up to 56 mod 64, then the bit length
as 8 big-endian bytes. -/
def sha1Pad (msg : List Nat) : List Nat :=
  let padlen := (56 + 64 - (msg.length + 1) % 64) % 64
  msg ++ 0x80 :: List.replicate padlen 0 ++ toBytesBE 8 (msg.length * 8)

/-- Group bytes into big-endian 32-bit words (input length is a multiple
of 4 after padding; a ragged tail would be dropped). -/
def toWordsBE : List Nat → List Nat
  | b0 :: b1 :: b2 :: b3 :: rest =>
      (((b0 * 256 + b1) * 256 + b2) * 256 + b3) :: toWordsBE rest
  | _ => []

/-- Group a word list into 16-word chunks (input length is a multiple of 16
after padding; a ragged tail would be dropped). -/
def toChunks : List Nat → List (Array Nat)
  | w0 :: w1 :: w2 :: w3 :: w4 :: w5 :: w6 :: w7 ::
    w8 :: w9 :: w10 :: w11 :: w12 :: w13 :: w14 :: w15 :: rest =>
      #[w0, w1, w2, w3, w4, w5, w6, w7, w8, w9, w10, w11, w12, w13, w14, w15]
        :: toChunks rest
  | _ => []

/-- SHA-1 message schedule: extend 16 words to 80. -/
def sha1Extend (w : Array Nat) : Array Nat :=
  (List.range 64).foldl
    (fun w i =>
      let t := i + 16
      w.push (rotl 1 (Nat.xor (Nat.xor (w.getD (t - 3) 0) (w.getD (t - 8) 0))
                              (Nat.xor (w.getD (t - 14) 0) (w.getD (t - 16) 0)))))
    w

/-- SHA-1 round function. -/
def sha1F (t b c d : Nat) : Nat :=
  if t < 20 then Nat.lor (Nat.land b c) (Nat.land (Nat.xor b (2 ^ 32 - 1)) d)
  else if t < 40 then Nat.xor (Nat.xor b c) d
  else if t < 60 then Nat.lor (Nat.lor (Nat.land b c) (Nat.land b d)) (Nat.land c d)
  else Nat.xor (Nat.xor b c) d

/-- SHA-1 round constants. -/
def sha1K (t : Nat) : Nat :=
  if t < 20 then 0x5A827999
  else if t < 40 then 0x6ED9EBA1
  else if t < 60 then 0x8F1BBCDC
  else 0xCA62C1D6

/-- One SHA-1 compression step over a 16-word chunk. -/
def sha1Compress (h : Nat × Nat × Nat × Nat × Nat) (chunk : Array Nat) :
    Nat × Nat × Nat × Nat × Nat :=
  let w := sha1Extend chunk
  let st := (List.range 80).foldl
    (fun (st : Nat × Nat × Nat × Nat × Nat) t =>
      let (a, b, c, d, e) := st
      let tmp := (rotl 5 a + sha1F t b c d + e + sha1K t + w.getD t 0) % 2 ^ 32
      (tmp, a, rotl 30 b, c, d))
    h
  (((h.1 + st.1) % 2 ^ 32),
   ((h.2.1 + st.2.1) % 2 ^ 32),
   ((h.2.2.1 + st.2.2.1) % 2 ^ 32),
   ((h.2.2.2.1 + st.2.2.2.1) % 2 ^ 32),
   ((h.2.2.2.2 + st.2.2.2.2) % 2 ^ 32))

/-- SHA-1 digest of a byte list, as the 20 digest bytes. -/
def sha1Digest (msg : List Nat) : List Nat :=
  let chunks := toChunks (toWordsBE (sha1Pad msg))
  let h := chunks.foldl sha1Compress
    (0x67452301, 0xEFCDAB89, 0x98BADCFE, 0x10325476, 0xC3D2E1F0)
  toBytesBE 4 h.1 ++ toBytesBE 4 h.2.1 ++ toBytesBE 4 h.2.2.1 ++
    toBytesBE 4 h.2.2.2.1 ++ toBytesBE 4 h.2.2.2.2

/-- Lowercase hex digit for a value below 16. -/
def hexDigit (n : Nat) : Char :=
  if n < 10 then Char.ofNat ('0'.toNat + n) else Char.ofNat ('a'.toNat + n - 10)

/-- Two lowercase hex digits of one byte. -/
def byteHex (b : Nat) : List Char :=
  [hexDigit (b / 16), hexDigit (b % 16)]

/-- Models `hashlib.sha1(...).hexdigest()` on a byte list. -/
def sha1Hex (msg : List Nat) : String :=
  ⟨(sha1Digest msg).flatMap byteHex⟩

/-! ### Python `repr` of a string (the `%r` conversion) -/

/-- One character of a Python string repr, given the chosen quote
character: backslash and the quote are escaped, as are newline, carriage
return, tab and the remaining ASCII control characters (as hex escapes). -/
def pyReprChar (q : Char) (c : Char) : List Char :=
  if c = '\\' then ['\\', '\\']
  else if c = q then ['\\', q]
  else if c = '\n' then ['\\', 'n']
  else if c = '\r' then ['\\', 'r']
  else if c = '\t' then ['\\', 't']
  else if c.toNat < 32 ∨ c.toNat = 127 then '\\' :: 'x' :: byteHex c.toNat
  else [c]

/-- Models Python `repr` on a text string: single quotes by default, double
quotes when the string holds a single quote but no double quote. -/
def pyRepr (s : String) : String :=
  let q := if s.data.contains '\'' ∧ ¬ s.data.contains '"' then '"' else '\''
  ⟨q :: s.data.flatMap (pyReprChar q) ++ [q]⟩

/-! ### Data model: the `plantuml` docutils node and the builder context -/

/-- The attributes of a `plantuml` node that the renderer and the visitors
read (`node["uml"]`, `node["incdir"]`, `node["filename"]` plus the
presentation options set by the directive). -/
structure UmlNode where
  uml : String
  incdir : String
  filename : String
  alt : Option String := none
  scale : Option Nat := none
  width : Option String := none
  height : Option String := none
  html_format : Option String := none
  latex_format : Option String := none
deriving DecidableEq, Repr

/-- The slice of the Sphinx builder/config state that the module reads:
`builder.imgpath` (absent or empty means the no-image-dir layout),
`builder.outdir`, `builder.srcdir`, and the `plantuml*` config values. -/
structure Builder where
  imgpath : Option String := none
  outdir : String := ""
  srcdir : String := ""
  plantuml_cmd : String := "plantuml"
  plantuml_output_format : String := "png"
  plantuml_latex_output_format : String := "png"
  plantuml_syntax_error_image : Bool := false
  plantuml_use_ftp_mode : Bool := false
deriving DecidableEq, Repr

/-- Models `posixpath.join` for two components: an absolute second component
replaces the first, otherwise a single separator is inserted unless the
first component is empty or already ends with one. -/
def pathJoin (a b : String) : String :=
  if b.startsWith "/" then b
  else if a = "" ∨ a.endsWith "/" then a ++ b
  else a ++ "/" ++ b

/-- Embeds `generate_name`: the sha1 hex digest of
`incdir utf-8 bytes, a zero byte, uml utf-8 bytes` keys the file name
`plantuml-<key>.<fileformat>`; with a (truthy) `builder.imgpath` the pair is
`(imgpath/fname, outdir/_images/fname)`, otherwise `(fname, outdir/fname)`. -/
def generate_name (b : Builder) (node : UmlNode) (fileformat : String) :
    String × String :=
  let key := sha1Hex (utf8 node.incdir ++ 0 :: utf8 node.uml)
  let fname := "plantuml-" ++ key ++ "." ++ fileformat
  match b.imgpath with
  | some ip =>
      if ip = "" then (fname, pathJoin b.outdir fname)
      else (ip ++ "/" ++ fname, pathJoin (pathJoin b.outdir "_images") fname)
  | none => (fname, pathJoin b.outdir fname)

/-! ### `render_plantuml` as a state-passing function

The filesystem is a map from paths to byte contents.  The spawned renderer
is an oracle: either `Popen` succeeds and yields a return code, the bytes it
wrote to the output file (its stdout) and the decoded stderr text, or it
raises `OSError` with `errno == ENOENT` (turned into `PlantUmlError`), or it
raises some other `OSError` (re-raised).  The FTP branch is likewise driven
by an oracle for the bytes the server returns. -/

/-- Behaviour of the `subprocess.Popen` call feeding the output file. -/
inductive LaunchOutcome where
  | ok (returncode : Int) (stdoutBytes : List Nat) (stderr : String)
  | enoent
  | oserror (msg : String)
deriving DecidableEq, Repr

/-- How a call of the Python function ends: normal return of
`(refname, outfname)`, a raised `PlantUmlError`, or a re-raised `OSError`
(or FTP-layer exception). -/
inductive RenderOutcome where
  | ok (refname outfname : String)
  | plantUmlErr (msg : String)
  | osErr (msg : String)
deriving DecidableEq, Repr

/-- Result of one `render_plantuml` call: outcome, filesystem afterwards,
number of `Popen` invocations attempted, warnings emitted via `_warn`. -/
structure RenderResult where
  result : RenderOutcome
  fs : String → Option (List Nat)
  popen_calls : Nat
  warnings : List String

/-- Point update of the filesystem map. -/
def fsUpdate (fs : String → Option (List Nat)) (p : String)
    (content : List Nat) : String → Option (List Nat) :=
  fun q => if q = p then some content else fs q

/-- Embeds `render_plantuml`.  If a file already exists at the derived path
the function returns at once (no `open`, no `Popen`).  Otherwise
`open(outfname, "wb")` creates the file, which stays on disk afterwards in
every branch because the only cleanup is `f.close()` in the `finally`
block — on an error path it holds whatever bytes were streamed before the
failure.  A non-zero renderer exit either warns (when
`plantuml_syntax_error_image` is set) or raises `PlantUmlError`, the message
carrying the captured stderr. -/
def render_plantuml (b : Builder) (fs : String → Option (List Nat))
    (launch : LaunchOutcome) (ftpBytes : Except String (List Nat))
    (node : UmlNode) (fileformat : String) : RenderResult :=
  let rf := generate_name b node fileformat
  match fs rf.2 with
  | some _ => ⟨.ok rf.1 rf.2, fs, 0, []⟩
  | none =>
    if b.plantuml_use_ftp_mode then
      match ftpBytes with
      | .ok bytes => ⟨.ok rf.1 rf.2, fsUpdate fs rf.2 bytes, 0, []⟩
      | .error e => ⟨.osErr e, fsUpdate fs rf.2 [], 0, []⟩
    else
      match launch with
      | .enoent =>
          ⟨.plantUmlErr ("plantuml command " ++ pyRepr b.plantuml_cmd ++
              " cannot be run"),
           fsUpdate fs rf.2 [], 1, []⟩
      | .oserror e => ⟨.osErr e, fsUpdate fs rf.2 [], 1, []⟩
      | .ok rc sout serr =>
          if rc = 0 then ⟨.ok rf.1 rf.2, fsUpdate fs rf.2 sout, 1, []⟩
          else if b.plantuml_syntax_error_image then
            ⟨.ok rf.1 rf.2, fsUpdate fs rf.2 sout, 1,
             ["error while running plantuml\n\n" ++ serr]⟩
          else
            ⟨.plantUmlErr ("error while running plantuml\n\n" ++ serr),
             fsUpdate fs rf.2 sout, 1, []⟩

/-! ### `render_plantuml_inline` and the text visitor -/

/-- Behaviour of the `Popen` call of `render_plantuml_inline`; here stdout
is captured and decoded, so it is a text oracle. -/
inductive InlineLaunch where
  | ok (returncode : Int) (stdout stderr : String)
  | enoent
  | oserror (msg : String)
deriving DecidableEq, Repr

/-- How `render_plantuml_inline` ends: the decoded stdout text, a raised
`PlantUmlError`, or a re-raised `OSError`. -/
inductive InlineResult where
  | ok (text : String)
  | plantUmlErr (msg : String)
  | osErr (msg : String)
deriving DecidableEq, Repr

/-- Embeds `render_plantuml_inline`: launch failure with `ENOENT` raises
`PlantUmlError`, another `OSError` propagates, a non-zero exit raises
`PlantUmlError` with the captured stderr, otherwise the decoded stdout is
returned. -/
def render_plantuml_inline (b : Builder) (launch : InlineLaunch) : InlineResult :=
  match launch with
  | .enoent =>
      .plantUmlErr ("plantuml command " ++ pyRepr b.plantuml_cmd ++
        " cannot be run")
  | .oserror e => .osErr e
  | .ok rc sout serr =>
      if rc = 0 then .ok sout
      else .plantUmlErr ("error while running plantuml\n\n" ++ serr)

/-- Embeds `text_visit_plantuml`: the first component is the call outcome
(`.ok` carries the text passed to `add_text`), the second the warnings
emitted.  A `PlantUmlError` from the inline renderer is downgraded to a
warning and the raw `node["uml"]` text is emitted instead. -/
def text_visit_plantuml (b : Builder) (launch : InlineLaunch)
    (node : UmlNode) : InlineResult × List String :=
  match render_plantuml_inline b launch with
  | .ok t => (.ok t, [])
  | .plantUmlErr e => (.ok node.uml, [e])
  | .osErr e => (.osErr e, [])

/-! ### `_get_png_tag` dimension scaling

Only the branch taken when scaling attributes are present and PIL is
importable is embedded (the other branches emit an unscaled `img` tag). -/

/-- Python `\s` whitespace (ASCII part, which is all that occurs in
dimension strings). -/
def pyIsSpace (c : Char) : Bool :=
  c = ' ' ∨ c = '\t' ∨ c = '\n' ∨ c = '\r' ∨ c.toNat = 11 ∨ c.toNat = 12

/-- Numeric value of a digit list, most significant first. -/
def digitsToNat (ds : List Char) : Nat :=
  ds.foldl (fun n c => n * 10 + (c.toNat - '0'.toNat)) 0

/-- Embeds matching the anchored regex
`(?P<value>\d+)\s*(?P<units>[a-zA-Z%]+)?` against a dimension string
(`re.match`): greedy digits from the start, optional whitespace, then an
optional greedy run of letters or percent.  `none` when no digit starts the
string; the units component is `none` when absent (the code then falls back
to `px`). -/
def vuMatch (s : String) : Option (Nat × Option String) :=
  let ds := s.data.takeWhile Char.isDigit
  if ds = [] then none
  else
    let rest := (s.data.drop ds.length).dropWhile pyIsSpace
    let us := rest.takeWhile (fun c => c.isAlpha ∨ c = '%')
    some (digitsToNat ds, if us = [] then none else some ⟨us⟩)

/-- Models the Python expression `"%s" % (w * scale / 100)` where `w` and
`scale` are ints, so `/` is float division.  For quotients with an exact
short decimal expansion (at most two fractional digits, the only values that
arise from percent scaling) the float prints as its minimal decimal
expansion, an integral value printing with a trailing `.0`. -/
def pyDivBy100Str (num : Nat) : String :=
  let ip := num / 100
  let fr := num % 100
  if fr = 0 then toString ip ++ ".0"
  else if fr % 10 = 0 then toString ip ++ "." ++ toString (fr / 10)
  else toString ip ++ "." ++ (if fr < 10 then "0" else "") ++ toString fr

/-- One style entry of `_get_png_tag`:
`styles.append("%s: %s%s" % (a, w * scale / 100, wu))` after the regex
match, `PlantUmlError("Invalid <axis>")` when the match fails. -/
def pngScaleStyle (axis dim : String) (scale : Nat) : Except String String :=
  match vuMatch dim with
  | none => .error ("Invalid " ++ axis)
  | some (w, units) =>
      .ok (axis ++ ": " ++ pyDivBy100Str (w * scale) ++ units.getD "px")

/-- The style list `_get_png_tag` builds from the declared `width`/`height`
attributes with `scale = node.get("scale", 100)` (the branch with scaling
attributes present and PIL available). -/
def pngScaleStyles (node : UmlNode) : Except String (List String) :=
  let scale := node.scale.getD 100
  match node.width with
  | none =>
      match node.height with
      | none => .ok []
      | some hdim =>
          match pngScaleStyle "height" hdim scale with
          | .error e => .error e
          | .ok st => .ok [st]
  | some wdim =>
      match pngScaleStyle "width" wdim scale with
      | .error e => .error e
      | .ok wst =>
          match node.height with
          | none => .ok [wst]
          | some hdim =>
              match pngScaleStyle "height" hdim scale with
              | .error e => .error e
              | .ok hst => .ok [wst, hst]

/-- The value of the `style` attribute that `_get_png_tag` emits:
`"; ".join(styles)`. -/
def pngStyleAttr (styles : List String) : String :=
  String.intercalate "; " styles

/-! ### `_get_svg_style` -/

/-- Word characters of the regex `\b` boundary (ASCII approximation of
`\w`; svg attribute text is ASCII). -/
def isWordChar (c : Char) : Bool :=
  c.isAlphanum ∨ c = '_'

/-- Match attempt of `<svg\b([^<>]+)` at a position just after a `<`:
requires the letters `svg`, then a character that is neither a word
character (the `\b` boundary after `g`) nor `<`/`>` (the first character of
the greedy group), and captures the maximal `[^<>]` run. -/
def svgAfterLt : List Char → Option (List Char)
  | 's' :: 'v' :: 'g' :: c :: rest =>
      if ¬ isWordChar c ∧ c ≠ '<' ∧ c ≠ '>' then
        some ((c :: rest).takeWhile (fun x => x ≠ '<' ∧ x ≠ '>'))
      else none
  | _ => none

/-- Embeds `re.search(r"<svg\b([^<>]+)", l)` returning group 1: leftmost
position where the pattern matches, scanning character by character. -/
def svgTagAttrs : List Char → Option (List Char)
  | [] => none
  | '<' :: rest =>
      match svgAfterLt rest with
      | some attrs => some attrs
      | none => svgTagAttrs rest
  | _ :: rest => svgTagAttrs rest

/-- Match attempt of `style=['"]([^'"]+)` at the current position (the `\b`
boundary before `s` is checked by the caller): the literal `style=`, one
quote of either kind, then a non-empty maximal run of non-quote characters. -/
def styleAt : List Char → Option (List Char)
  | 's' :: 't' :: 'y' :: 'l' :: 'e' :: '=' :: q :: rest =>
      if q = '\'' ∨ q = '"' then
        let v := rest.takeWhile (fun c => c ≠ '\'' ∧ c ≠ '"')
        if v = [] then none else some v
      else none
  | _ => none

/-- Embeds `re.search(r"\bstyle=['\"]([^'\"]+)", attrs)` returning group 1:
scan left to right; at each position a match needs the word boundary (start
of string or previous character not a word character) and the `styleAt`
pattern; on failure the scan advances one character, as `re.search` does. -/
def styleScan (prev : Option Char) : List Char → Option (List Char)
  | [] => none
  | c :: rest =>
      let boundary := match prev with
        | none => true
        | some p => ¬ isWordChar p
      match if boundary then styleAt (c :: rest) else none with
      | some v => some v
      | none => styleScan (some c) rest

/-- Embeds `_get_svg_style`, the file given as its list of lines: the first
line containing an `<svg ...` tag supplies the attribute text; absence of
such a line, or of a `style` attribute in it, yields `none` (Python
`return` with no value). -/
def _get_svg_style : List String → Option String
  | [] => none
  | l :: rest =>
      match svgTagAttrs l.data with
      | some attrs => (styleScan none attrs).map (fun v => ⟨v⟩)
      | none => _get_svg_style rest

/-! ### Output-format dispatch tables and their error messages -/

/-- Association-list lookup (models Python dict indexing, `KeyError`
becoming `none`). -/
def lookup {α : Type} (k : String) : List (String × α) → Option α
  | [] => none
  | kv :: rest => if k = kv.1 then some kv.2 else lookup k rest

/-- The tag-building functions of `_KNOWN_HTML_FORMATS`, as tags. -/
inductive HtmlTagKind where
  | pngTag
  | svgTag
  | svgImgTag
  | svgObjTag
deriving DecidableEq, Repr

/-- Embeds `_KNOWN_HTML_FORMATS`: key, required fileformats, tag builder
(in the dict insertion order, which `", ".join` over the keys follows). -/
def knownHtmlFormatTable : List (String × (List String × HtmlTagKind)) :=
  [("png", (["png"], .pngTag)),
   ("svg", (["png", "svg"], .svgTag)),
   ("svg_img", (["svg"], .svgImgTag)),
   ("svg_obj", (["svg"], .svgObjTag))]

/-- Post-processing step of `_KNOWN_LATEX_FORMATS`. -/
inductive LatexPost where
  | keep
  | epstopdf
deriving DecidableEq, Repr

/-- Embeds `_KNOWN_LATEX_FORMATS`: key, rendered fileformat, post-processing. -/
def knownLatexFormatTable : List (String × (String × LatexPost)) :=
  [("eps", ("eps", .keep)),
   ("pdf", ("eps", .epstopdf)),
   ("png", ("png", .keep))]

/-- The `", ".join(map(repr, table))` part of the error messages: iterating
a Python dict yields its keys in insertion order. -/
def joinedReprKeys {α : Type} (table : List (String × α)) : String :=
  String.intercalate ", " (table.map (fun kv => pyRepr kv.1))

/-- The `PlantUmlError` message of `_prepare_html_render` for an unknown
format value. -/
def htmlUnknownFormatMsg (fmt : String) : String :=
  "plantuml_output_format must be one of " ++ joinedReprKeys knownHtmlFormatTable ++
    ", but is " ++ pyRepr fmt

/-- The `PlantUmlError` message of `latex_visit_plantuml` for an unknown
format value. -/
def latexUnknownFormatMsg (fmt : String) : String :=
  "plantuml_latex_output_format must be one of " ++
    joinedReprKeys knownLatexFormatTable ++ ", but is " ++ pyRepr fmt

/-- How format preparation ends: `SkipNode` for `"none"`, a successful
dispatch, or (for an unknown value) a `PlantUmlError` that the surrounding
handler downgrades to a warning followed by `SkipNode`. -/
inductive PrepOutcome (α : Type) where
  | skipNode
  | dispatch (entry : α)
  | warnSkip (msg : String)
deriving DecidableEq, Repr

/-- Embeds `_prepare_html_render`: `"none"` raises `SkipNode`; a known
format yields its `(fileformats, gettag)` entry; a `KeyError` raises
`PlantUmlError`, caught by the `except` clause which warns with the message
and raises `SkipNode`. -/
def prepare_html_render (fmt : String) :
    PrepOutcome (List String × HtmlTagKind) :=
  if fmt = "none" then .skipNode
  else
    match lookup fmt knownHtmlFormatTable with
    | some entry => .dispatch entry
    | none => .warnSkip (htmlUnknownFormatMsg fmt)

/-- Embeds the format selection of `latex_visit_plantuml` (the part before
rendering): `"none"` raises `SkipNode`; a known format yields its
`(fileformat, postproc)` entry; otherwise the `PlantUmlError` is caught,
warned, and `SkipNode` raised. -/
def latex_prepare (fmt : String) : PrepOutcome (String × LatexPost) :=
  if fmt = "none" then .skipNode
  else
    match lookup fmt knownLatexFormatTable with
    | some entry => .dispatch entry
    | none => .warnSkip (latexUnknownFormatMsg fmt)

/-- The format the HTML visitor uses: the per-node override when present,
else the `plantuml_output_format` config value. -/
def html_visit_fmt (b : Builder) (node : UmlNode) : String :=
  node.html_format.getD b.plantuml_output_format

/-- The format the LaTeX visitor uses: the per-node override when present,
else the `plantuml_latex_output_format` config value. -/
def latex_visit_fmt (b : Builder) (node : UmlNode) : String :=
  node.latex_format.getD b.plantuml_latex_output_format

/-! ### Directive option validators (docutils `directives.choice`) -/

/-- ASCII lowering plus strip of surrounding whitespace: models
`argument.lower().strip()` as `directives.choice` applies it (format names
are ASCII). -/
def pyLowerStrip (s : String) : String :=
  let lowered := s.data.map (fun c =>
    if 'A' ≤ c ∧ c ≤ 'Z' then Char.ofNat (c.toNat + 32) else c)
  ⟨((lowered.dropWhile pyIsSpace).reverse.dropWhile pyIsSpace).reverse⟩

/-- The `format_values` helper of docutils: all values quoted, the last
prefixed with `or`. -/
def formatValuesMsg (values : List String) : String :=
  String.intercalate ", " ((values.dropLast).map (fun s => "\"" ++ s ++ "\"")) ++
    ", or \"" ++ (values.getLast?.getD "") ++ "\""

/-- Embeds `directives.choice(argument, values)`: the lowered, stripped
argument when it is one of the values, else a `ValueError`. -/
def directives_choice (argument : String) (values : List String) :
    Except String String :=
  if pyLowerStrip argument ∈ values then .ok (pyLowerStrip argument)
  else .error ("\"" ++ argument ++ "\" unknown; choose from " ++
    formatValuesMsg values)

/-- Embeds the `html_format` option validator: choice over the keys of
`_KNOWN_HTML_FORMATS`. -/
def html_format_option (argument : String) : Except String String :=
  directives_choice argument (knownHtmlFormatTable.map (·.1))

/-- Embeds the `latex_format` option validator: choice over the keys of
`_KNOWN_LATEX_FORMATS`. -/
def latex_format_option (argument : String) : Except String String :=
  directives_choice argument (knownLatexFormatTable.map (·.1))

/-! ### `PlantumlFtp.connect` -/

/-- The mutable fields of `PlantumlFtp` that `connect` touches, plus a
count of the `time.sleep(0.2)` calls performed. -/
structure FtpState where
  is_connected : Bool
  connection_try : Nat
  sleep_calls : Nat
deriving DecidableEq, Repr

/-- The instance field `connection_try_max = 5`. -/
def connection_try_max : Nat := 5

/-- The `while` loop of `PlantumlFtp.connect`, guard
`not is_connected and connection_try < maxTry`.  Every iteration first
increments `connection_try`; a successful `ftp.connect`/`login` sets
`is_connected`, a `ConnectionRefusedError` (outcome `false` for that
attempt number) logs, sleeps 0.2 s and loops.  Because `connection_try`
grows by one per iteration, at most `maxTry - connection_try` iterations
remain; the fuel argument makes that bound explicit and is always
sufficient when it starts at that value, so the embedding is exact. -/
def connect_loop (outcome : Nat → Bool) (maxTry : Nat) :
    Nat → FtpState → FtpState
  | 0, st => st
  | fuel + 1, st =>
      if ¬ st.is_connected ∧ st.connection_try < maxTry then
        let t := st.connection_try + 1
        if outcome t then
          connect_loop outcome maxTry fuel
            { is_connected := true, connection_try := t,
              sleep_calls := st.sleep_calls }
        else
          connect_loop outcome maxTry fuel
            { is_connected := false, connection_try := t,
              sleep_calls := st.sleep_calls + 1 }
      else st

/-- Embeds `PlantumlFtp.connect` from the freshly constructed state
(`is_connected = False`, `connection_try = 0`): the attempt outcomes are an
oracle indexed by attempt number. -/
def ftp_connect (outcome : Nat → Bool) : FtpState :=
  connect_loop outcome connection_try_max connection_try_max
    { is_connected := false, connection_try := 0, sleep_calls := 0 }

/-! ### `UmlDirective.run` -/

/-- Models `posixpath` split at the last separator: first component the head
including trailing separators, second the basename. -/
def splitLast (s : String) : String × String :=
  let r := s.data.reverse
  let tail := r.takeWhile (fun c => c ≠ '/')
  (⟨s.data.take (s.data.length - tail.length)⟩, ⟨tail.reverse⟩)

/-- Models `os.path.dirname` (posix): head of the split, stripped of
trailing separators unless it is all separators. -/
def pathDirname (s : String) : String :=
  let head := (splitLast s).1
  if head.data ≠ [] ∧ ¬ head.data.all (fun c => c = '/') then
    ⟨(head.data.reverse.dropWhile (fun c => c = '/')).reverse⟩
  else head

/-- Models `os.path.split(s)[1]`. -/
def pathBasename (s : String) : String :=
  (splitLast s).2

/-- A docutils node returned by `UmlDirective.run`: a reporter warning, a
`plantuml` node, or the `figure` wrapper produced for `caption`/`align`
(children other than the inner `plantuml` node elided). -/
inductive DocNode where
  | warningNode (msg : String)
  | plantumlNode (n : UmlNode)
  | figureNode (children : List DocNode)

/-- The environment interactions of `UmlDirective.run`: the result of
`_read_utf8` on the resolved file (for the filename-argument branch), the
relative path of that file, and the relative path of the current document
(for the inline branch). -/
structure RunEnv where
  readResult : Except String String
  relfn : String
  docRelfn : String

/-- The directive options relevant to node construction. -/
structure RunOptions where
  alt : Option String := none
  align : Option String := none
  caption : Option String := none
  scale : Option Nat := none
  width : Option String := none
  height : Option String := none
  html_format : Option String := none
  latex_format : Option String := none
deriving DecidableEq, Repr

/-- The node construction and `figure` wrapping of `UmlDirective.run` after
`umlcode` and `relfn` are known. -/
def mkUmlDocNode (umlcode relfn : String) (opts : RunOptions) : DocNode :=
  let n : UmlNode :=
    { uml := umlcode, incdir := pathDirname relfn,
      filename := pathBasename relfn, alt := opts.alt, scale := opts.scale,
      width := opts.width, height := opts.height,
      html_format := opts.html_format, latex_format := opts.latex_format }
  if opts.caption.isSome ∨ opts.align.isSome then
    .figureNode [.plantumlNode n]
  else .plantumlNode n

/-- Embeds `UmlDirective.run`: both a filename argument and body content
yield a single reporter warning; a filename argument alone reads the file
(a read failure again yielding a single warning); otherwise the joined body
content becomes the diagram source. -/
def uml_directive_run (arguments content : List String) (env : RunEnv)
    (opts : RunOptions) : List DocNode :=
  if arguments ≠ [] ∧ content ≠ [] then
    [.warningNode "uml directive cannot have both content and a filename argument"]
  else
    match arguments with
    | fn :: _ =>
        match env.readResult with
        | .error err =>
            [.warningNode ("PlantUML file \"" ++ fn ++ "\" cannot be read: " ++
              err)]
        | .ok umlcode => [mkUmlDocNode umlcode env.relfn opts]
    | [] => [mkUmlDocNode (String.intercalate "\n" content) env.docRelfn opts]

/-! ### Substring containment and concrete sample data used by witnesses -/

/-- `sub` occurs contiguously inside `s`. -/
def strContains (s sub : String) : Prop :=
  sub.data <:+: s.data

instance (s sub : String) : Decidable (strContains s sub) :=
  List.decidableInfix sub.data s.data

/-- A builder with the default configuration and a concrete output dir. -/
def sampleBuilder : Builder := { outdir := "out" }

/-- A concrete diagram node. -/
def sampleNode : UmlNode := { uml := "A -> B", incdir := "", filename := "doc.rst" }

/-- Same diagram source and include dir as `sampleNode`, different source
file name. -/
def sampleNodeAlt : UmlNode :=
  { uml := "A -> B", incdir := "", filename := "other.rst" }

/-- A filesystem already holding an (empty) artifact at the path derived
for `sampleNode` in png format. -/
def sampleFsWithArtifact : String → Option (List Nat) :=
  fun p => if p = (generate_name sampleBuilder sampleNode "png").2 then some []
           else none

/-- The empty filesystem. -/
def emptyFs : String → Option (List Nat) := fun _ => none

/-- The node of the scaling example: `:scale: 20` and `:width: 50mm`. -/
def scaleSampleNode : UmlNode :=
  { uml := "A -> B", incdir := "", filename := "doc.rst",
    scale := some 20, width := some "50mm" }

/-- The svg file contents of the repository's style-extraction test, as the
single line the renderer emits. -/
def svgTestLine : String :=
  "<?xml version=\"1.0\" encoding=\"UTF-8\" standalone=\"yes\"?><svg xmlns=\"http://www.w3.org/2000/svg\" height=\"147pt\" style=\"width:115px;height:147px;\" version=\"1.1\" viewBox=\"0 0 115 147\" width=\"115pt\"><defs/>"

/-- A directive environment whose file read succeeds. -/
def sampleRunEnv : RunEnv := ⟨.ok "A -> B", "sub/doc.rst", "doc.rst"⟩

/-! ## Helper lemmas -/

theorem infix_app_left {α : Type} {l m : List α} (r : List α) (h : l <:+: m) :
    l <:+: m ++ r := by
  obtain ⟨s, t, hst⟩ := h
  exact ⟨s, t ++ r, by rw [← hst]; simp⟩

theorem infix_app_right {α : Type} {l r : List α} (m : List α) (h : l <:+: r) :
    l <:+: m ++ r := by
  obtain ⟨s, t, hst⟩ := h
  exact ⟨m ++ s, t, by rw [← hst]; simp⟩

theorem strContains_append_left (a b sub : String) (h : strContains a sub) :
    strContains (a ++ b) sub := by
  unfold strContains at *
  rw [String.data_append]
  exact infix_app_left _ h

theorem strContains_append_right (a b sub : String) (h : strContains b sub) :
    strContains (a ++ b) sub := by
  unfold strContains at *
  rw [String.data_append]
  exact infix_app_right _ h

theorem strContains_refl (s : String) : strContains s s :=
  ⟨[], [], by simp⟩

/-! ## Claim theorems -/

/-- C1: `generate_name` keys the output file name by a deterministic sha1
digest of `(node["incdir"], node["uml"])` alone, so two nodes agreeing on
those fields derive the same `(refname, outfname)` for a given fileformat;
and `render_plantuml` invoked when a file already exists at the derived
path returns `(refname, outfname)` at once — the filesystem is untouched
and no renderer process is spawned, so re-rendering the same
`(incdir, uml, fileformat)` reuses the existing artifact. -/
theorem generate_name_deterministic_and_cache_hit
    (b : Builder) (n₁ n₂ : UmlNode) (ff : String)
    (fs : String → Option (List Nat)) (launch : LaunchOutcome)
    (ftpBytes : Except String (List Nat)) (c : List Nat)
    (h₁ : n₁.incdir = n₂.incdir) (h₂ : n₁.uml = n₂.uml)
    (hf : fs (generate_name b n₁ ff).2 = some c) :
    generate_name b n₁ ff = generate_name b n₂ ff
    ∧ (render_plantuml b fs launch ftpBytes n₁ ff).result
        = .ok (generate_name b n₁ ff).1 (generate_name b n₁ ff).2
    ∧ (render_plantuml b fs launch ftpBytes n₁ ff).popen_calls = 0
    ∧ (render_plantuml b fs launch ftpBytes n₁ ff).fs = fs := by
  refine ⟨?_, ?_, ?_, ?_⟩
  · simp only [generate_name, h₁, h₂]
  all_goals simp only [render_plantuml, hf]

/-- Witness for C1 at concrete inputs: the artifact for `sampleNode` is on
disk, the second node differs only in its `filename` attribute. -/
theorem generate_name_deterministic_and_cache_hit_witness :
    generate_name sampleBuilder sampleNode "png"
      = generate_name sampleBuilder sampleNodeAlt "png"
    ∧ (render_plantuml sampleBuilder sampleFsWithArtifact .enoent (.ok [])
        sampleNode "png").result
      = .ok (generate_name sampleBuilder sampleNode "png").1
          (generate_name sampleBuilder sampleNode "png").2
    ∧ (render_plantuml sampleBuilder sampleFsWithArtifact .enoent (.ok [])
        sampleNode "png").popen_calls = 0
    ∧ (render_plantuml sampleBuilder sampleFsWithArtifact .enoent (.ok [])
        sampleNode "png").fs = sampleFsWithArtifact :=
  generate_name_deterministic_and_cache_hit sampleBuilder sampleNode
    sampleNodeAlt "png" sampleFsWithArtifact .enoent (.ok []) [] rfl rfl
    (by simp [sampleFsWithArtifact])

/-- C2: when the spawned renderer exits non-zero (normal mode, no cached
file), `render_plantuml` raises a `PlantUmlError` carrying the captured
stderr exactly when `plantuml_syntax_error_image` is unset; when the flag is
set it only emits a warning carrying the stderr and still returns
`(refname, outfname)`. -/
theorem render_nonzero_exit_error_iff_flag_unset
    (b : Builder) (fs : String → Option (List Nat))
    (ftpBytes : Except String (List Nat)) (node : UmlNode) (ff : String)
    (rc : Int) (sout : List Nat) (serr : String)
    (hftp : b.plantuml_use_ftp_mode = false)
    (habs : fs (generate_name b node ff).2 = none)
    (hrc : rc ≠ 0) :
    ((render_plantuml b fs (.ok rc sout serr) ftpBytes node ff).result
        = .plantUmlErr ("error while running plantuml\n\n" ++ serr)
      ↔ b.plantuml_syntax_error_image = false)
    ∧ (b.plantuml_syntax_error_image = true →
        (render_plantuml b fs (.ok rc sout serr) ftpBytes node ff).result
          = .ok (generate_name b node ff).1 (generate_name b node ff).2
        ∧ (render_plantuml b fs (.ok rc sout serr) ftpBytes node ff).warnings
          = ["error while running plantuml\n\n" ++ serr]) := by
  cases hflag : b.plantuml_syntax_error_image <;>
    simp [render_plantuml, habs, hftp, hrc, hflag]

/-- Witness for C2: default configuration (flag unset), empty filesystem,
renderer exit code 1. -/
theorem render_nonzero_exit_error_iff_flag_unset_witness :
    ((render_plantuml sampleBuilder emptyFs (.ok 1 [] "boom") (.ok [])
        sampleNode "png").result
      = .plantUmlErr ("error while running plantuml\n\n" ++ "boom")
      ↔ sampleBuilder.plantuml_syntax_error_image = false)
    ∧ (sampleBuilder.plantuml_syntax_error_image = true →
        (render_plantuml sampleBuilder emptyFs (.ok 1 [] "boom") (.ok [])
          sampleNode "png").result
          = .ok (generate_name sampleBuilder sampleNode "png").1
              (generate_name sampleBuilder sampleNode "png").2
        ∧ (render_plantuml sampleBuilder emptyFs (.ok 1 [] "boom") (.ok [])
            sampleNode "png").warnings
          = ["error while running plantuml\n\n" ++ "boom"]) :=
  render_nonzero_exit_error_iff_flag_unset sampleBuilder emptyFs (.ok [])
    sampleNode "png" 1 [] "boom" rfl rfl (by decide)

/-- C7: when the renderer exits non-zero with the tolerate flag unset (and
generally after the output file has been opened), the raised error leaves
the created file on disk with whatever bytes were streamed; a subsequent
`render_plantuml` for the same `(incdir, uml, fileformat)` finds that file,
spawns nothing, changes nothing, and returns the possibly corrupt artifact
— the operation is not atomic on error. -/
theorem render_failure_leaves_artifact_that_is_reused
    (b : Builder) (fs : String → Option (List Nat))
    (ftpBytes ftpBytes₂ : Except String (List Nat)) (launch₂ : LaunchOutcome)
    (node : UmlNode) (ff : String) (rc : Int) (sout : List Nat) (serr : String)
    (hftp : b.plantuml_use_ftp_mode = false)
    (hflag : b.plantuml_syntax_error_image = false)
    (habs : fs (generate_name b node ff).2 = none)
    (hrc : rc ≠ 0) :
    (render_plantuml b fs (.ok rc sout serr) ftpBytes node ff).result
      = .plantUmlErr ("error while running plantuml\n\n" ++ serr)
    ∧ (render_plantuml b fs (.ok rc sout serr) ftpBytes node ff).fs
        (generate_name b node ff).2 = some sout
    ∧ (render_plantuml b
        (render_plantuml b fs (.ok rc sout serr) ftpBytes node ff).fs
        launch₂ ftpBytes₂ node ff).result
      = .ok (generate_name b node ff).1 (generate_name b node ff).2
    ∧ (render_plantuml b
        (render_plantuml b fs (.ok rc sout serr) ftpBytes node ff).fs
        launch₂ ftpBytes₂ node ff).popen_calls = 0
    ∧ (render_plantuml b
        (render_plantuml b fs (.ok rc sout serr) ftpBytes node ff).fs
        launch₂ ftpBytes₂ node ff).fs
      = (render_plantuml b fs (.ok rc sout serr) ftpBytes node ff).fs := by
  have hfirst : render_plantuml b fs (.ok rc sout serr) ftpBytes node ff
      = ⟨.plantUmlErr ("error while running plantuml\n\n" ++ serr),
         fsUpdate fs (generate_name b node ff).2 sout, 1, []⟩ := by
    simp [render_plantuml, habs, hftp, hflag, hrc]
  have h1 : fsUpdate fs (generate_name b node ff).2 sout
      (generate_name b node ff).2 = some sout := by
    simp [fsUpdate]
  rw [hfirst]
  refine ⟨rfl, h1, ?_, ?_, ?_⟩
  all_goals simp only [render_plantuml, h1]

/-- Witness for C7: default configuration, empty filesystem, exit code 1
with two bytes of partial output. -/
theorem render_failure_leaves_artifact_that_is_reused_witness :
    (render_plantuml sampleBuilder emptyFs (.ok 1 [1, 2] "syntax?") (.ok [])
        sampleNode "png").result
      = .plantUmlErr ("error while running plantuml\n\n" ++ "syntax?")
    ∧ (render_plantuml sampleBuilder emptyFs (.ok 1 [1, 2] "syntax?") (.ok [])
        sampleNode "png").fs (generate_name sampleBuilder sampleNode "png").2
      = some [1, 2]
    ∧ (render_plantuml sampleBuilder
        (render_plantuml sampleBuilder emptyFs (.ok 1 [1, 2] "syntax?")
          (.ok []) sampleNode "png").fs
        (.ok 0 [] "") (.ok []) sampleNode "png").result
      = .ok (generate_name sampleBuilder sampleNode "png").1
          (generate_name sampleBuilder sampleNode "png").2
    ∧ (render_plantuml sampleBuilder
        (render_plantuml sampleBuilder emptyFs (.ok 1 [1, 2] "syntax?")
          (.ok []) sampleNode "png").fs
        (.ok 0 [] "") (.ok []) sampleNode "png").popen_calls = 0
    ∧ (render_plantuml sampleBuilder
        (render_plantuml sampleBuilder emptyFs (.ok 1 [1, 2] "syntax?")
          (.ok []) sampleNode "png").fs
        (.ok 0 [] "") (.ok []) sampleNode "png").fs
      = (render_plantuml sampleBuilder emptyFs (.ok 1 [1, 2] "syntax?")
          (.ok []) sampleNode "png").fs :=
  render_failure_leaves_artifact_that_is_reused sampleBuilder emptyFs (.ok [])
    (.ok []) (.ok 0 [] "") sampleNode "png" 1 [1, 2] "syntax?" rfl rfl rfl
    (by decide)

/-- C3 counterexample: for `scale = 20` and `width = "50mm"` the emitted
style is `width: 10.0mm` — Python computes `50 * 20 / 100` with float
division and formats it as `10.0`, and the separator is `": "` — so the
claimed literal `width=10mm` does not occur in the emitted style. -/
theorem png_scale_style_is_not_literal_width_eq_10mm :
    pngScaleStyles scaleSampleNode = .ok ["width: 10.0mm"]
    ∧ pngStyleAttr ["width: 10.0mm"] = "width: 10.0mm"
    ∧ ¬ strContains (pngStyleAttr ["width: 10.0mm"]) "width=10mm" := by
  refine ⟨rfl, rfl, ?_⟩
  decide

/-- C3 amended: with scale and a declared dimension present, the dimension
is parsed as `<number><unit>` by the anchored regex and scaled numerically
by `scale/100`; for `scale = 20` and `width = "50mm"` the emitted style is
exactly `width: 10.0mm` (the value 10 mm, formatted by Python as the float
`10.0` after a `": "` separator). -/
theorem png_scale_parses_and_scales
    (n : UmlNode) (scale w : Nat) (u : Option String) (dim : String)
    (hs : n.scale = some scale) (hw : n.width = some dim) (hh : n.height = none)
    (hm : vuMatch dim = some (w, u)) :
    pngScaleStyles n
      = .ok ["width: " ++ pyDivBy100Str (w * scale) ++ u.getD "px"]
    ∧ vuMatch "50mm" = some (50, some "mm")
    ∧ pyDivBy100Str (50 * 20) = "10.0"
    ∧ pngScaleStyles scaleSampleNode = .ok ["width: 10.0mm"] := by
  refine ⟨?_, rfl, rfl, rfl⟩
  simp [pngScaleStyles, hs, hw, hh, pngScaleStyle, hm]

/-- Witness for the amended C3 at the concrete node of the example. -/
theorem png_scale_parses_and_scales_witness :
    pngScaleStyles scaleSampleNode
      = .ok ["width: " ++ pyDivBy100Str (50 * 20) ++ (some "mm").getD "px"]
    ∧ vuMatch "50mm" = some (50, some "mm")
    ∧ pyDivBy100Str (50 * 20) = "10.0"
    ∧ pngScaleStyles scaleSampleNode = .ok ["width: 10.0mm"] :=
  png_scale_parses_and_scales scaleSampleNode 20 50 (some "mm") "50mm"
    rfl rfl rfl (by decide)

/-- C4: for every format value that is neither a table key nor `"none"`,
both the HTML preparation and the LaTeX preparation end in the
warn-and-skip outcome whose message carries the offending value (as Python
prints it with `%r`) and every accepted value of the respective table. -/
theorem unknown_output_format_msg_names_value_and_accepted
    (fmt : String)
    (hh : lookup fmt knownHtmlFormatTable = none)
    (hl : lookup fmt knownLatexFormatTable = none)
    (hn : fmt ≠ "none") :
    (prepare_html_render fmt = .warnSkip (htmlUnknownFormatMsg fmt)
      ∧ strContains (htmlUnknownFormatMsg fmt) (pyRepr fmt)
      ∧ ∀ k ∈ knownHtmlFormatTable.map (·.1),
          strContains (htmlUnknownFormatMsg fmt) (pyRepr k))
    ∧ (latex_prepare fmt = .warnSkip (latexUnknownFormatMsg fmt)
      ∧ strContains (latexUnknownFormatMsg fmt) (pyRepr fmt)
      ∧ ∀ k ∈ knownLatexFormatTable.map (·.1),
          strContains (latexUnknownFormatMsg fmt) (pyRepr k)) := by
  refine ⟨⟨?_, ?_, ?_⟩, ⟨?_, ?_, ?_⟩⟩
  · simp [prepare_html_render, hn, hh]
  · exact strContains_append_right _ _ _ (strContains_refl _)
  · intro k hk
    refine strContains_append_left _ _ _ ?_
    fin_cases hk <;> decide
  · simp [latex_prepare, hn, hl]
  · exact strContains_append_right _ _ _ (strContains_refl _)
  · intro k hk
    refine strContains_append_left _ _ _ ?_
    fin_cases hk <;> decide

/-- Witness for C4 at the unknown value `"foo"`. -/
theorem unknown_output_format_msg_names_value_and_accepted_witness :
    (prepare_html_render "foo" = .warnSkip (htmlUnknownFormatMsg "foo")
      ∧ strContains (htmlUnknownFormatMsg "foo") (pyRepr "foo")
      ∧ ∀ k ∈ knownHtmlFormatTable.map (·.1),
          strContains (htmlUnknownFormatMsg "foo") (pyRepr k))
    ∧ (latex_prepare "foo" = .warnSkip (latexUnknownFormatMsg "foo")
      ∧ strContains (latexUnknownFormatMsg "foo") (pyRepr "foo")
      ∧ ∀ k ∈ knownLatexFormatTable.map (·.1),
          strContains (latexUnknownFormatMsg "foo") (pyRepr k)) :=
  unknown_output_format_msg_names_value_and_accepted "foo" (by decide)
    (by decide) (by decide)

/-- C5: style extraction returns the `style` attribute of the first line
holding an opening `<svg ...>` tag — on the file of the repository's test it
is exactly `width:115px;height:147px;` — and a file with no matching `<svg`
tag, or an `<svg` tag without a `style` attribute, yields `none` (no
exception; callers substitute the empty string). -/
theorem svg_style_extraction_spec :
    _get_svg_style [svgTestLine] = some "width:115px;height:147px;"
    ∧ (∀ ls : List String, (∀ l ∈ ls, svgTagAttrs l.data = none) →
        _get_svg_style ls = none)
    ∧ _get_svg_style ["<svg width=\"10\">"] = none := by
  refine ⟨by decide, ?_, by decide⟩
  intro ls h
  induction ls with
  | nil => rfl
  | cons l rest ih =>
      have hl := h l (by simp)
      simp only [_get_svg_style, hl]
      exact ih (fun x hx => h x (by simp [hx]))

/-- Witness for C5: a file with no svg tag at all maps to `none`. -/
theorem svg_style_extraction_spec_witness :
    _get_svg_style ["hello", "world"] = none :=
  svg_style_extraction_spec.2.1 ["hello", "world"] (by decide)

/-- C6: the text visitor emits the renderer stdout as literal text on a
zero exit; whenever `render_plantuml_inline` raises `PlantUmlError` (a
non-zero exit or an `ENOENT` launch failure), it instead emits a warning
carrying the error and outputs the raw diagram source `node["uml"]`,
without failing the build. -/
theorem text_visitor_stdout_and_uml_fallback
    (b : Builder) (node : UmlNode) (rc : Int) (sout serr : String)
    (hrc : rc ≠ 0) :
    text_visit_plantuml b (.ok 0 sout serr) node = (.ok sout, [])
    ∧ text_visit_plantuml b (.ok rc sout serr) node
        = (.ok node.uml, ["error while running plantuml\n\n" ++ serr])
    ∧ text_visit_plantuml b .enoent node
        = (.ok node.uml,
           ["plantuml command " ++ pyRepr b.plantuml_cmd ++ " cannot be run"]) := by
  refine ⟨rfl, ?_, rfl⟩
  simp [text_visit_plantuml, render_plantuml_inline, hrc]

/-- Witness for C6 with exit code 1 and concrete streams. -/
theorem text_visitor_stdout_and_uml_fallback_witness :
    text_visit_plantuml sampleBuilder (.ok 0 "diagram" "") sampleNode
      = (.ok "diagram", [])
    ∧ text_visit_plantuml sampleBuilder (.ok 1 "diagram" "oops") sampleNode
        = (.ok sampleNode.uml, ["error while running plantuml\n\n" ++ "oops"])
    ∧ text_visit_plantuml sampleBuilder .enoent sampleNode
        = (.ok sampleNode.uml,
           ["plantuml command " ++ pyRepr sampleBuilder.plantuml_cmd ++
             " cannot be run"]) :=
  text_visitor_stdout_and_uml_fallback sampleBuilder sampleNode 1 "diagram"
    "oops" (by decide)

/-- The connect loop can only raise `connection_try`, never past the bound. -/
theorem connect_loop_try_le (outcome : Nat → Bool) (maxTry : Nat) :
    ∀ (fuel : Nat) (st : FtpState), st.connection_try ≤ maxTry →
      (connect_loop outcome maxTry fuel st).connection_try ≤ maxTry := by
  intro fuel
  induction fuel with
  | zero => intro st h; exact h
  | succ fuel ih =>
      intro st h
      simp only [connect_loop]
      split
      · next hguard =>
          cases houtcome : outcome (st.connection_try + 1)
          · simp only [houtcome, if_false, Bool.false_eq_true]
            exact ih _ hguard.2
          · simp only [houtcome, if_true]
            exact ih _ hguard.2
      · exact h

/-- With every attempt refused, the loop runs its fuel out one try and one
sleep per iteration. -/
theorem connect_loop_all_refused (outcome : Nat → Bool)
    (h : ∀ k, outcome k = false) :
    ∀ (fuel t s : Nat), t + fuel = connection_try_max →
      connect_loop outcome connection_try_max fuel ⟨false, t, s⟩
        = ⟨false, connection_try_max, s + fuel⟩ := by
  intro fuel
  induction fuel with
  | zero => intro t s ht; simp_all [connect_loop]
  | succ fuel ih =>
      intro t s ht
      have hlt : t < connection_try_max := by omega
      simp only [connect_loop, Bool.not_false, hlt, and_true, if_true,
        Bool.false_eq_true, not_false_eq_true, true_and, if_pos, h (t + 1),
        Bool.false_eq_true]
      rw [if_neg (by simp [h (t + 1)])]
      rw [ih (t + 1) (s + 1) (by omega)]
      congr 1
      omega

/-- C8: `PlantumlFtp.connect` performs at most
`connection_try_max = 5` attempts (every iteration increments
`connection_try`, so it never exceeds the bound for any outcome sequence),
and when every attempt is refused it sleeps once per refusal and returns
normally after the fifth with `is_connected` still false — no exception, no
further retry. -/
theorem ftp_connect_bounded_retries (outcome : Nat → Bool)
    (h : ∀ k, outcome k = false) :
    ftp_connect outcome
      = ⟨false, connection_try_max, connection_try_max⟩
    ∧ (∀ oc : Nat → Bool,
        (ftp_connect oc).connection_try ≤ connection_try_max) := by
  constructor
  · exact connect_loop_all_refused outcome h connection_try_max 0 0 rfl
  · intro oc
    exact connect_loop_try_le oc connection_try_max connection_try_max _
      (Nat.zero_le _)

/-- Witness for C8 with the always-refused outcome sequence. -/
theorem ftp_connect_bounded_retries_witness :
    ftp_connect (fun _ => false)
      = ⟨false, connection_try_max, connection_try_max⟩
    ∧ (∀ oc : Nat → Bool,
        (ftp_connect oc).connection_try ≤ connection_try_max) :=
  ftp_connect_bounded_retries (fun _ => false) (fun _ => rfl)

/-- C9: a per-block `html_format`/`latex_format` value is validated at
parse time by `directives.choice` against exactly the keys of the dispatch
tables, so any node carrying a validated override makes the visitors
dispatch successfully — the unknown-format error branch is unreachable from
a per-block override. -/
theorem validated_format_override_always_dispatches
    (aHtml aLatex v w : String)
    (h1 : html_format_option aHtml = .ok v)
    (h2 : latex_format_option aLatex = .ok w) :
    (∀ (bd : Builder) (n : UmlNode), n.html_format = some v →
      ∃ e, prepare_html_render (html_visit_fmt bd n) = .dispatch e)
    ∧ (∀ (bd : Builder) (n : UmlNode), n.latex_format = some w →
      ∃ e, latex_prepare (latex_visit_fmt bd n) = .dispatch e) := by
  have hv : v ∈ knownHtmlFormatTable.map (·.1) := by
    unfold html_format_option directives_choice at h1
    split at h1
    · next hmem => cases h1; exact hmem
    · cases h1
  have hw : w ∈ knownLatexFormatTable.map (·.1) := by
    unfold latex_format_option directives_choice at h2
    split at h2
    · next hmem => cases h2; exact hmem
    · cases h2
  constructor
  · intro bd n hn
    have hfmt : html_visit_fmt bd n = v := by simp [html_visit_fmt, hn]
    rw [hfmt]
    simp only [knownHtmlFormatTable, List.map, List.mem_cons,
      List.not_mem_nil, or_false] at hv
    rcases hv with rfl | rfl | rfl | rfl <;> exact ⟨_, rfl⟩
  · intro bd n hn
    have hfmt : latex_visit_fmt bd n = w := by simp [latex_visit_fmt, hn]
    rw [hfmt]
    simp only [knownLatexFormatTable, List.map, List.mem_cons,
      List.not_mem_nil, or_false] at hw
    rcases hw with rfl | rfl | rfl <;> exact ⟨_, rfl⟩

/-- Witness for C9 with the validated overrides `"svg"` and `"pdf"`. -/
theorem validated_format_override_always_dispatches_witness :
    (∀ (bd : Builder) (n : UmlNode), n.html_format = some "svg" →
      ∃ e, prepare_html_render (html_visit_fmt bd n) = .dispatch e)
    ∧ (∀ (bd : Builder) (n : UmlNode), n.latex_format = some "pdf" →
      ∃ e, latex_prepare (latex_visit_fmt bd n) = .dispatch e) :=
  validated_format_override_always_dispatches "svg" "pdf" "svg" "pdf" rfl rfl

/-- C10: a `uml` directive invocation with both a filename argument and
body content returns exactly one reporter warning node — no `plantuml` node
is produced, from neither the file nor the inline content. -/
theorem uml_directive_both_content_and_filename_warns
    (arguments content : List String) (env : RunEnv) (opts : RunOptions)
    (ha : arguments ≠ []) (hc : content ≠ []) :
    uml_directive_run arguments content env opts
      = [.warningNode
          "uml directive cannot have both content and a filename argument"]
    ∧ ∀ d ∈ uml_directive_run arguments content env opts,
        ∀ n : UmlNode, d ≠ .plantumlNode n := by
  have hrun : uml_directive_run arguments content env opts
      = [.warningNode
          "uml directive cannot have both content and a filename argument"] := by
    simp [uml_directive_run, ha, hc]
  refine ⟨hrun, ?_⟩
  rw [hrun]
  intro d hd n
  simp only [List.mem_singleton] at hd
  subst hd
  simp

/-- Witness for C10 with a concrete argument and one line of content. -/
theorem uml_directive_both_content_and_filename_warns_witness :
    uml_directive_run ["diagram.puml"] ["A -> B"] sampleRunEnv {}
      = [.warningNode
          "uml directive cannot have both content and a filename argument"]
    ∧ ∀ d ∈ uml_directive_run ["diagram.puml"] ["A -> B"] sampleRunEnv {},
        ∀ n : UmlNode, d ≠ .plantumlNode n :=
  uml_directive_both_content_and_filename_warns ["diagram.puml"] ["A -> B"]
    sampleRunEnv {} (by simp) (by simp)

end SphinxPlantuml
